import Mathlib

/-!
Shallow embedding of `src/agentic_workflow_demo.py`: a six-stage Streamlit
wizard.  One execution of the script body is modelled as one `step`: it
reads the current `AppState` (the persistent `st.session_state`), reacts to
at most one pressed button (`Option Btn`), and returns the new state
together with the telemetry events constructed, the payloads passed to the
sink (`supabase.table("user_events").insert`), and the outcome of each
insert attempt.  UUIDs are modelled by a fresh-identifier counter
(`nextUuid`): each call of `uuid.uuid4()` returns the counter and bumps it,
so distinct draws are distinct numbers.  Timestamps are naturals.
External behaviour that the script reads each run (the `USE_HF` toggle,
the Hugging Face pipeline, the Supabase client, the `simulate_failure`
checkbox, the `random.choice` draw, `datetime.utcnow()`) is packaged in
`Env`; the backend and the sink return `Except`, the `error` case standing
for a raised exception.
-/

/-- The `st.session_state.inputs` dict; only the keys `summary` and
`guidelines` are ever written. -/
structure WorkflowInputs where
  summary : Option String
  guidelines : Option String
deriving Repr, DecidableEq

/-- The persistent `st.session_state` fields the script uses, plus the
fresh-uuid counter modelling `uuid.uuid4()`. -/
structure AppState where
  sessionId : Nat
  stage : Nat
  inputs : WorkflowInputs
  stageStartTime : Nat
  lastActivityTime : Nat
  nextUuid : Nat
deriving Repr, DecidableEq

/-- The `data` dict built in `log_to_supabase` (lines 119-132 of the
source). -/
structure TelemetryEvent where
  sessionId : Nat
  stageNumber : Nat
  userInput : String
  aiOutput : String
  timestampStart : Nat
  timestampEnd : Nat
  durationSec : Nat
  abandonedAtStage : Option Nat
  searchFrequency : Nat
  buttonClicked : String
  completed : Bool
  lastInfoPriorToAbandonment : Option String
deriving Repr, DecidableEq

/-- Outcome of one `insert(...).execute()` attempt as observed by the
surrounding `try/except`: `ok := false` records a caught exception. -/
structure EmitResult where
  ok : Bool
  errorDetail : Option String
deriving Repr, DecidableEq

/-- Ambient values read afresh on every script run: the sidebar toggles,
the generation backend (`Except.error` = the pipeline raised), the
telemetry sink (`Except.error` = `insert(...).execute()` raised), the
`random.choice([True, False])` draw used if `maybe_fail` samples, and the
current wall-clock time. -/
structure Env where
  useHF : Bool
  backend : String → Except String String
  sink : TelemetryEvent → Except String Unit
  simulateFailure : Bool
  failDraw : Bool
  now : Nat

/-- Python's `str.strip()`: drop whitespace from both ends.  Defined over
the character list so that it evaluates by kernel reduction. -/
def pyStrip (s : String) : String :=
  ⟨((s.data.dropWhile Char.isWhitespace).reverse.dropWhile
      Char.isWhitespace).reverse⟩

/-- `generate_response` (source lines 197-204): mock string when the
toggle is off; otherwise the pipeline output, with any raised exception
converted to an `[AI Error]` string. -/
def generate_response (useHF : Bool) (hf : String → Except String String)
    (prompt : String) : String :=
  if useHF = false then "[Mock AI] Response for: " ++ prompt
  else
    match hf prompt with
    | Except.ok t => t
    | Except.error e => "[AI Error] " ++ e

/-- `maybe_fail` (source lines 207-208): the coin flip only when the
simulate-failure checkbox is on; otherwise always success. -/
def maybe_fail (env : Env) : Bool :=
  if env.simulateFailure then env.failDraw else true

/-- Result of one call of `log_to_supabase`. -/
structure LogResult where
  state : AppState
  event : TelemetryEvent
  sinkCalls : List TelemetryEvent
  emits : List EmitResult
deriving DecidableEq

/-- One `insert(data).execute()` wrapped in `try/except`: never raises to
the caller. -/
def attemptInsert (env : Env) (data : TelemetryEvent) : EmitResult :=
  match env.sink data with
  | Except.ok _ => { ok := true, errorDetail := none }
  | Except.error m => { ok := false, errorDetail := some m }

/-- `log_to_supabase` (source lines 107-194).  Note line 118 of the
source: after retrieving the session's id (lines 113-116, inert here since
the id is always initialised), the local `session_id` is overwritten with
a fresh `uuid.uuid4()`, and that fresh value goes into the payload.  The
payload is inserted twice: once at line 138 and again at line 157, each
attempt in its own `try/except`.  Finally `stage_start_time` and
`last_activity_time` are set to now (lines 193-194).  The conditional
debug button at line 169 inserts a minimal `{stage_number: 1}` probe, not
the action's event, and is not part of the emission. -/
def log_to_supabase (env : Env) (s : AppState) (stage_number : Nat)
    (user_input ai_output button_clicked : String) (completed : Bool) :
    LogResult :=
  let now := env.now
  let last_start_time := s.stageStartTime
  let duration := now - last_start_time
  let freshId := s.nextUuid
  let data : TelemetryEvent :=
    { sessionId := freshId
      stageNumber := stage_number
      userInput := user_input
      aiOutput := ai_output
      timestampStart := last_start_time
      timestampEnd := now
      durationSec := duration
      abandonedAtStage := if completed then none else some stage_number
      searchFrequency := 0
      buttonClicked := button_clicked
      completed := completed
      lastInfoPriorToAbandonment := if completed then none else some ai_output }
  let r1 := attemptInsert env data
  let r2 := attemptInsert env data
  { state := { s with
               stageStartTime := now
               lastActivityTime := now
               nextUuid := s.nextUuid + 1 }
    event := data
    sinkCalls := [data, data]
    emits := [r1, r2] }

/-- The buttons of the UI, each is the operator action handled in the
stage branch that renders it. -/
inductive Btn where
  | detectAndSummarize (text : String)
  | proceedToAttach
  | yesFetch
  | noStop
  | retry
  | stopWorkflow
  | submitCase
  | restartDemo
deriving Repr, DecidableEq

/-- Everything one script run produces besides the new state: the events
constructed, the insert payloads sent, the insert outcomes, whether
`st.stop()` was reached, and whether `st.rerun()` was requested. -/
structure RunResult where
  state : AppState
  events : List TelemetryEvent
  sinkCalls : List TelemetryEvent
  emits : List EmitResult
  halted : Bool
  rerun : Bool
deriving DecidableEq

/-- A run in which the dispatched branch does nothing to the state. -/
def noChange (s : AppState) : RunResult :=
  { state := s, events := [], sinkCalls := [], emits := [],
    halted := false, rerun := false }

/-- One run of the script body (the stage dispatch, source lines
217-315).  `btn` is the button whose press triggered this run (`none` for
a plain rerender, e.g. the run scheduled by `st.rerun()`).  The stage-4
retrieval and the stage-6 telemetry run on render, without any button. -/
def step (env : Env) (s : AppState) (btn : Option Btn) : RunResult :=
  if s.stage = 1 then
    match btn with
    | some (Btn.detectAndSummarize text) =>
      if pyStrip text = "" then noChange s
      else
        let summary := generate_response env.useHF env.backend
          ("summarize: " ++ text)
        let s1 := { s with inputs := { s.inputs with summary := some summary } }
        let lr := log_to_supabase env s1 1 text summary
          "Detect and Summarize Entry" false
        { state := { lr.state with stage := 2 }, events := [lr.event],
          sinkCalls := lr.sinkCalls, emits := lr.emits,
          halted := false, rerun := true }
    | _ => noChange s
  else if s.stage = 2 then
    match btn with
    | some Btn.proceedToAttach =>
      let lr := log_to_supabase env s 2 "Confirmed summary" ""
        "Proceed to attach summarisation" false
      { state := { lr.state with stage := 3 }, events := [lr.event],
        sinkCalls := lr.sinkCalls, emits := lr.emits,
        halted := false, rerun := true }
    | _ => noChange s
  else if s.stage = 3 then
    match btn with
    | some Btn.yesFetch =>
      let lr := log_to_supabase env s 3 "Yes" "" "Yes, fetch guidelines" false
      { state := { lr.state with stage := 4 }, events := [lr.event],
        sinkCalls := lr.sinkCalls, emits := lr.emits,
        halted := false, rerun := true }
    | some Btn.noStop =>
      let lr := log_to_supabase env s 3 "No" "User stopped at stage 3"
        "No, stop here" false
      { state := lr.state, events := [lr.event],
        sinkCalls := lr.sinkCalls, emits := lr.emits,
        halted := true, rerun := false }
    | _ => noChange s
  else if s.stage = 4 then
    if maybe_fail env then
      let guidelines := generate_response env.useHF env.backend
        "Provide imaging guidelines based on patient symptoms."
      let s1 := { s with inputs := { s.inputs with guidelines := some guidelines } }
      let lr := log_to_supabase env s1 4 "Request guidelines" guidelines
        "Fetch guidelines" false
      { state := { lr.state with stage := 5 }, events := [lr.event],
        sinkCalls := lr.sinkCalls, emits := lr.emits,
        halted := false, rerun := true }
    else
      match btn with
      | some Btn.retry =>
        let lr := log_to_supabase env s 4 "Retry" "" "Retry" false
        { state := lr.state, events := [lr.event],
          sinkCalls := lr.sinkCalls, emits := lr.emits,
          halted := false, rerun := true }
      | some Btn.stopWorkflow =>
        let lr := log_to_supabase env s 4 "Stop" "User stopped after failure"
          "Stop workflow" false
        { state := lr.state, events := [lr.event],
          sinkCalls := lr.sinkCalls, emits := lr.emits,
          halted := true, rerun := false }
      | _ => noChange s
  else if s.stage = 5 then
    match btn with
    | some Btn.submitCase =>
      let lr := log_to_supabase env s 5 "Submit" "" "Submit Case" false
      { state := { lr.state with stage := 6 }, events := [lr.event],
        sinkCalls := lr.sinkCalls, emits := lr.emits,
        halted := false, rerun := true }
    | _ => noChange s
  else if s.stage = 6 then
    let lr := log_to_supabase env s 6 "Final submission" "Completed"
      "Submission Preview" true
    match btn with
    | some Btn.restartDemo =>
      { state := { lr.state with
                   stage := 1
                   inputs := { summary := none, guidelines := none }
                   stageStartTime := env.now },
        events := [lr.event], sinkCalls := lr.sinkCalls, emits := lr.emits,
        halted := false, rerun := true }
    | _ =>
      { state := lr.state, events := [lr.event],
        sinkCalls := lr.sinkCalls, emits := lr.emits,
        halted := false, rerun := false }
  else noChange s

/-! ## Projection lemmas for `log_to_supabase` -/

@[simp] theorem log_state_stage (env : Env) (s : AppState) (n : Nat)
    (u a bc : String) (c : Bool) :
    (log_to_supabase env s n u a bc c).state.stage = s.stage := rfl

@[simp] theorem log_state_sessionId (env : Env) (s : AppState) (n : Nat)
    (u a bc : String) (c : Bool) :
    (log_to_supabase env s n u a bc c).state.sessionId = s.sessionId := rfl

@[simp] theorem log_state_inputs (env : Env) (s : AppState) (n : Nat)
    (u a bc : String) (c : Bool) :
    (log_to_supabase env s n u a bc c).state.inputs = s.inputs := rfl

@[simp] theorem log_state_stageStartTime (env : Env) (s : AppState) (n : Nat)
    (u a bc : String) (c : Bool) :
    (log_to_supabase env s n u a bc c).state.stageStartTime = env.now := rfl

@[simp] theorem log_state_nextUuid (env : Env) (s : AppState) (n : Nat)
    (u a bc : String) (c : Bool) :
    (log_to_supabase env s n u a bc c).state.nextUuid = s.nextUuid + 1 := rfl

@[simp] theorem log_event_sessionId (env : Env) (s : AppState) (n : Nat)
    (u a bc : String) (c : Bool) :
    (log_to_supabase env s n u a bc c).event.sessionId = s.nextUuid := rfl

@[simp] theorem log_event_stageNumber (env : Env) (s : AppState) (n : Nat)
    (u a bc : String) (c : Bool) :
    (log_to_supabase env s n u a bc c).event.stageNumber = n := rfl

@[simp] theorem log_event_completed (env : Env) (s : AppState) (n : Nat)
    (u a bc : String) (c : Bool) :
    (log_to_supabase env s n u a bc c).event.completed = c := rfl

@[simp] theorem log_sinkCalls_eq (env : Env) (s : AppState) (n : Nat)
    (u a bc : String) (c : Bool) :
    (log_to_supabase env s n u a bc c).sinkCalls
      = [(log_to_supabase env s n u a bc c).event,
         (log_to_supabase env s n u a bc c).event] := rfl

/-! ## Concrete fixtures for closed evaluations -/

/-- A deterministic mock of the text-generation pipeline. -/
def mockBackend : String → Except String String :=
  fun p => Except.ok ("t5:" ++ p)

/-- A sink whose inserts always succeed. -/
def okSink : TelemetryEvent → Except String Unit := fun _ => Except.ok ()

/-- A sink whose inserts always raise (simulated outage). -/
def downSink : TelemetryEvent → Except String Unit :=
  fun _ => Except.error "sink outage"

/-- An environment with the mock backend, a healthy sink, the
simulate-failure checkbox off, and a fixed clock. -/
def baseEnv : Env :=
  { useHF := false, backend := mockBackend, sink := okSink,
    simulateFailure := false, failDraw := true, now := 100 }

/-- `baseEnv` with the simulate-failure checkbox on and the coin flip
fixed to the failure outcome. -/
def failEnv : Env :=
  { baseEnv with simulateFailure := true, failDraw := false }

/-- The empty `inputs` dict. -/
def emptyInputs : WorkflowInputs := { summary := none, guidelines := none }

/-- A session at stage `stg`, just after initialisation: the session's
uuid was the first draw of the counter (`sessionId = 0`), so the next
fresh uuid is `1`. -/
def mkState (stg : Nat) : AppState :=
  { sessionId := 0, stage := stg, inputs := emptyInputs,
    stageStartTime := 40, lastActivityTime := 40, nextUuid := 1 }

/-! ## Claims -/

set_option maxHeartbeats 2000000

/-- C1: for every session state, environment and operator action, one run
of the script leaves `currentStage` unchanged, increases it by exactly 1
(and then only from a stage in 1..5), or resets it to 1 via the restart
button from stage 6; it never skips a value and never decreases
otherwise. -/
theorem stage_steps_by_one (env : Env) (s : AppState) (btn : Option Btn) :
    (step env s btn).state.stage = s.stage
    ∨ ((step env s btn).state.stage = s.stage + 1 ∧ 1 ≤ s.stage ∧ s.stage ≤ 5)
    ∨ (btn = some Btn.restartDemo ∧ s.stage = 6
        ∧ (step env s btn).state.stage = 1) := by
  rcases btn with _ | b <;> try rcases b with text | _ | _ | _ | _ | _ | _ | _
  all_goals
    dsimp only [step, noChange]
  all_goals
    split_ifs
  all_goals
    first
      | exact Or.inl rfl
      | (refine Or.inr (Or.inl ⟨?_, by omega, by omega⟩); simp only [*]; try rfl)
      | exact Or.inr (Or.inr ⟨rfl, by omega, rfl⟩)

/-- C10: `generate_response` is total over its backend: with the toggle
off it returns the mock string for the prompt; with the toggle on it
returns the backend's generated text, and if the backend raises it
returns the `[AI Error]` string built from the exception message — it
never raises. -/
theorem generate_response_total (hf : String → Except String String)
    (prompt : String) :
    generate_response false hf prompt = "[Mock AI] Response for: " ++ prompt
    ∧ generate_response true hf prompt
        = (match hf prompt with
           | Except.ok t => t
           | Except.error e => "[AI Error] " ++ e) :=
  ⟨rfl, rfl⟩

/-- C9: every telemetry event emitted by a run carries `completed = true`
exactly when its stage number is 6: the stage-1..5 events (including the
stage-3 decline, the stage-4 retry and the stage-4 stop) all carry
`completed = false`, and the stage-6 event carries `completed = true`. -/
theorem completed_iff_stage6 (env : Env) (s : AppState) (btn : Option Btn) :
    ((step env s btn).events.all
      fun ev => ev.completed == (ev.stageNumber == 6)) = true := by
  rcases btn with _ | b <;> try rcases b with text | _ | _ | _ | _ | _ | _ | _
  all_goals
    dsimp only [step, noChange]
  all_goals
    split_ifs
  all_goals rfl

/-- C3 (amended): every run constructs at most one TelemetryEvent, but
`log_to_supabase` passes the payload to the sink twice, so the number of
insert attempts is exactly twice the number of events. -/
theorem telemetry_one_event_two_inserts (env : Env) (s : AppState)
    (btn : Option Btn) :
    (step env s btn).events.length ≤ 1
    ∧ (step env s btn).sinkCalls.length = 2 * (step env s btn).events.length := by
  rcases btn with _ | b <;> try rcases b with text | _ | _ | _ | _ | _ | _ | _
  all_goals
    dsimp only [step, noChange]
  all_goals
    split_ifs
  all_goals
    first
      | exact ⟨Nat.le_refl 1, rfl⟩
      | exact ⟨Nat.zero_le 1, rfl⟩

/-- C3 (counterexample): the 'Proceed to attach summarisation' action at
stage 2 sends its single event to the sink twice, refuting 'sent to the
sink at most once per action'. -/
theorem telemetry_double_insert :
    (step baseEnv (mkState 2) (some Btn.proceedToAttach)).sinkCalls.length = 2
    ∧ ¬ ((step baseEnv (mkState 2) (some Btn.proceedToAttach)).sinkCalls.length
          ≤ 1) :=
  ⟨rfl, by decide⟩

/-- C2: the claim fails on the code.  `log_to_supabase` overwrites the
local `session_id` with a fresh `uuid.uuid4()` (source line 118), so the
event emitted by the stage-2 action carries the fresh uuid (here `1`),
not the session's stable `sessionId` (here `0`, drawn first at session
start). -/
theorem telemetry_sessionId_fresh_uuid :
    (mkState 2).sessionId = 0
    ∧ (step baseEnv (mkState 2) (some Btn.proceedToAttach)).events.map
        TelemetryEvent.sessionId = [1] :=
  ⟨rfl, rfl⟩

/-- C4: the claim fails on the code.  After 'No, stop here' at stage 3
the run halts (`st.stop()`) but `currentStage` stays 3, and the next run
accepts 'Yes, fetch guidelines', advancing to stage 4.  Likewise after
'Stop workflow' from the stage-4 failed state the stage stays 4, and a
mere rerender with a successful retrieval advances to stage 5.  The
session is therefore not in a terminal Abandoned state. -/
theorem stage3_stop_not_terminal :
    ((step baseEnv (mkState 3) (some Btn.noStop)).halted = true
      ∧ (step baseEnv (mkState 3) (some Btn.noStop)).state.stage = 3
      ∧ (step baseEnv
          (step baseEnv (mkState 3) (some Btn.noStop)).state
          (some Btn.yesFetch)).state.stage = 4)
    ∧ ((step failEnv (mkState 4) (some Btn.stopWorkflow)).halted = true
      ∧ (step failEnv (mkState 4) (some Btn.stopWorkflow)).state.stage = 4
      ∧ (step baseEnv
          (step failEnv (mkState 4) (some Btn.stopWorkflow)).state
          none).state.stage = 5) :=
  ⟨⟨rfl, rfl, rfl⟩, ⟨rfl, rfl, rfl⟩⟩

/-- C5 (counterexample): the restart button at stage 6 leaves
`sessionId` unchanged (the handler, source lines 311-315, only resets
`stage`, `inputs` and `stage_start_time`), refuting 'assigns a sessionId
different from the prior one'. -/
theorem restart_keeps_sessionId :
    (mkState 6).stage = 6
    ∧ (mkState 6).sessionId = 0
    ∧ (step baseEnv (mkState 6) (some Btn.restartDemo)).state.sessionId = 0 :=
  ⟨rfl, rfl, rfl⟩

/-- C5 (amended): invoking restart at stage 6 resets `currentStage` to 1,
clears `inputs.summary` and `inputs.guidelines` to absent and resets
`stageEnteredAt` to the current time, but keeps the same `sessionId`. -/
theorem restart_resets_state (env : Env) (s : AppState) (hs : s.stage = 6) :
    (step env s (some Btn.restartDemo)).state.stage = 1
    ∧ (step env s (some Btn.restartDemo)).state.inputs.summary = none
    ∧ (step env s (some Btn.restartDemo)).state.inputs.guidelines = none
    ∧ (step env s (some Btn.restartDemo)).state.stageStartTime = env.now
    ∧ (step env s (some Btn.restartDemo)).state.sessionId = s.sessionId := by
  obtain ⟨sid, stg, inp, t0, t1, nu⟩ := s
  dsimp only at hs
  subst hs
  exact ⟨rfl, rfl, rfl, rfl, rfl⟩

/-- C5 (witness): the amended restart theorem applied at a concrete
stage-6 state. -/
theorem restart_resets_state_witness :
    (mkState 6).stage = 6
    ∧ (step baseEnv (mkState 6) (some Btn.restartDemo)).state.stage = 1
    ∧ (step baseEnv (mkState 6) (some Btn.restartDemo)).state.sessionId
        = (mkState 6).sessionId :=
  ⟨rfl, (restart_resets_state baseEnv (mkState 6) rfl).1,
    (restart_resets_state baseEnv (mkState 6) rfl).2.2.2.2⟩

/-- C6: at stage 1, submitting text with non-empty trimmed form stores
`generate("summarize: " ++ text)` as `inputs.summary`, emits one
TelemetryEvent, and advances to stage 2; if the backend raises, the
`[AI Error]` string is stored verbatim as the summary without raising. -/
theorem submitIntake_nonempty (env : Env) (s : AppState) (text : String)
    (hs : s.stage = 1) (h : pyStrip text ≠ "") :
    (step env s (some (Btn.detectAndSummarize text))).state.stage = 2
    ∧ (step env s (some (Btn.detectAndSummarize text))).state.inputs.summary
        = some (generate_response env.useHF env.backend ("summarize: " ++ text))
    ∧ (step env s (some (Btn.detectAndSummarize text))).events.length = 1
    ∧ (∀ e, env.useHF = true
        → env.backend ("summarize: " ++ text) = Except.error e
        → (step env s (some (Btn.detectAndSummarize text))).state.inputs.summary
            = some ("[AI Error] " ++ e)) := by
  obtain ⟨sid, stg, inp, t0, t1, nu⟩ := s
  dsimp only at hs
  subst hs
  dsimp only [step, noChange]
  split_ifs
  all_goals
    first
      | contradiction
      | exact ⟨rfl, rfl, rfl, fun e hu he => by
          simp [generate_response, hu, he]⟩

/-- C6 (witness): the non-empty intake theorem applied at a concrete
stage-1 state and input. -/
theorem submitIntake_nonempty_witness :
    pyStrip "fever and cough" ≠ ""
    ∧ (step baseEnv (mkState 1)
        (some (Btn.detectAndSummarize "fever and cough"))).state.stage = 2 :=
  ⟨by decide,
    (submitIntake_nonempty baseEnv (mkState 1) "fever and cough" rfl
      (by decide)).1⟩

/-- C7: at stage 1, submitting text whose trimmed form is empty changes
nothing: the state (hence `currentStage` and `WorkflowInputs`) is
untouched and no TelemetryEvent is constructed or sent. -/
theorem submitIntake_empty_noop (env : Env) (s : AppState) (text : String)
    (hs : s.stage = 1) (h : pyStrip text = "") :
    (step env s (some (Btn.detectAndSummarize text))).state = s
    ∧ (step env s (some (Btn.detectAndSummarize text))).events = []
    ∧ (step env s (some (Btn.detectAndSummarize text))).sinkCalls = [] := by
  obtain ⟨sid, stg, inp, t0, t1, nu⟩ := s
  dsimp only at hs
  subst hs
  dsimp only [step, noChange]
  split_ifs
  all_goals
    first
      | exact ⟨rfl, rfl, rfl⟩
      | contradiction

/-- C7 (witness): the empty-intake theorem applied to the whitespace
input at a concrete stage-1 state. -/
theorem submitIntake_empty_noop_witness :
    pyStrip "   " = ""
    ∧ (step baseEnv (mkState 1) (some (Btn.detectAndSummarize "   "))).state
        = mkState 1 :=
  ⟨by decide,
    (submitIntake_empty_noop baseEnv (mkState 1) "   " rfl (by decide)).1⟩

/-- C8: the emission is modelled total (each insert's exception is caught
by `attemptInsert`, so `log_to_supabase` never raises into the caller),
and replacing the sink by any other behaviour — including one that always
raises — changes nothing a run produces except the recorded insert
outcomes: state, events, payloads, halting and rerun are identical, so
every stage transition completes regardless of emission success. -/
theorem step_sink_independent (env : Env)
    (k : TelemetryEvent → Except String Unit) (s : AppState)
    (btn : Option Btn) :
    (step { env with sink := k } s btn).state = (step env s btn).state
    ∧ (step { env with sink := k } s btn).events = (step env s btn).events
    ∧ (step { env with sink := k } s btn).sinkCalls
        = (step env s btn).sinkCalls
    ∧ (step { env with sink := k } s btn).halted = (step env s btn).halted
    ∧ (step { env with sink := k } s btn).rerun = (step env s btn).rerun := by
  rcases btn with _ | b <;> try rcases b with text | _ | _ | _ | _ | _ | _ | _
  all_goals dsimp only [step, noChange, maybe_fail]
  all_goals split_ifs
  all_goals exact ⟨rfl, rfl, rfl, rfl, rfl⟩
